import Mathlib

/-!
Shallow embedding of the "self-healing swarm cooling" simulation engines of
this repository, and proofs of the specified properties.

Three engine variants exist in the source:

* `TickSim` — the tick-counter variant (`useSimulation` hook with the
  `prototype`/`vision` scenarios): every snapshot is a pure function of the
  current step counter, the manual-fault flag and the random draws.
* `RingSim` — the ring-topology variant (`useSimulation.ts` of
  `zone-swarm-heal-main`): a stateful per-agent update rule with explicit
  failure/repair commands and load redistribution from failed neighbors.
* `SwarmJS` — the heat/cool-balance variant (`script.js`): a line topology of
  six named agents with a hot-threshold redistribution phase.

Numeric fields are modelled as rationals (`ℚ`); JavaScript `Math.random()`
calls are modelled by an explicit stream `r : ℕ → ℚ` of draws (each call site
reads a distinct slot), and `Math.sin`-derived ambients are passed as
parameters where they occur.  Division in `ℚ` yields `0` on a zero
denominator, which matches the JavaScript `(x || 0)` guard in the one place
the source divides by a possibly-zero count when the numerator is also zero;
the case of a positive numerator over a zero denominator (JavaScript
`Infinity`) is treated explicitly where it matters.
-/

namespace TickSim

/-- Agent status set of the tick-counter variant
(`type AgentStatus = "healthy" | "faulty" | "compensating" | "cooling"`). -/
inductive AgentStatus
  | healthy
  | faulty
  | compensating
  | cooling
deriving DecidableEq, Repr

/-- One agent record of the tick-counter variant (`interface AgentData`). -/
structure AgentData where
  id : ℕ
  temperature : ℚ
  fanSpeed : ℚ
  power : ℚ
  status : AgentStatus
deriving DecidableEq, Repr

/-- Per-tick snapshot of the tick-counter variant (`interface SimulationData`). -/
structure SimulationData where
  agents : List AgentData
  avgTemp : ℚ
  variance : ℚ
  avgPower : ℚ
  recoveryTime : ℕ
  efficiency : ℚ
  phase : String
  phaseDescription : String
deriving DecidableEq, Repr

/-- The two scenarios of the tick-counter variant. -/
inductive Scenario
  | prototype
  | vision
deriving DecidableEq, Repr

/-- `maxSteps = scenario === "prototype" ? 200 : 250`. -/
def maxSteps : Scenario → ℕ
  | .prototype => 200
  | .vision => 250

/-- `numAgents = scenario === "prototype" ? 6 : 20`. -/
def numAgents : Scenario → ℕ
  | .prototype => 6
  | .vision => 20

/-- `faultStep = scenario === "prototype" ? 50 : 100`. -/
def faultStep : Scenario → ℕ
  | .prototype => 50
  | .vision => 100

/-- Absolute difference of two naturals, for `Math.abs(i - (numAgents - 1))`. -/
def natDist (i j : ℕ) : ℕ := max i j - min i j

/-- The faulty-agent predicate of the tick-counter variant: in `prototype`
the last agent, in `vision` the last three agents. -/
def isFaultyAgent (sc : Scenario) (i : ℕ) : Bool :=
  match sc with
  | .prototype => i = numAgents sc - 1
  | .vision =>
      i = numAgents sc - 1 ∨ i = numAgents sc - 2 ∨ i = numAgents sc - 3

/-- One agent of `calculateSimulationData`, for index `i`.  `r` is the stream
of `Math.random()` draws; agent `i` consumes slots `3*i`, `3*i+1`, `3*i+2`
in source order (at most three calls occur per agent). -/
def mkAgent (sc : Scenario) (currentStep : ℕ) (manualFault : Bool)
    (r : ℕ → ℚ) (i : ℕ) : AgentData :=
  let targetTemp : ℚ := 25
  let r0 := r (3 * i)
  let r1 := r (3 * i + 1)
  let r2 := r (3 * i + 2)
  if faultStep sc ≤ currentStep ∨ manualFault then
    if isFaultyAgent sc i ∧ currentStep < faultStep sc + 100 then
      -- faulty agent: temp = target + 5 + rand*3, fan = 0, power = 0
      { id := i, temperature := targetTemp + 5 + r0 * 3, fanSpeed := 0,
        power := 0, status := .faulty }
    else if ¬ isFaultyAgent sc i ∧
        natDist i (numAgents sc - 1) ≤ (if sc = .vision then 5 else 2) then
      if currentStep < faultStep sc + 50 then
        -- compensating neighbors
        { id := i, temperature := targetTemp - 1/2 - r2,
          fanSpeed := 75 + r0 * 20, power := 500 + r1 * 100,
          status := .compensating }
      else
        { id := i, temperature := targetTemp + (r2 - 1/2) * (1/2),
          fanSpeed := 55 + r0 * 10, power := 440 + r1 * 20,
          status := .healthy }
    else
      -- other agents
      { id := i,
        temperature :=
          targetTemp + (r0 - 1/2) * (if sc = .vision then 1/5 else 1),
        fanSpeed := 50 + r1 * 10, power := 430 + r2 * 20,
        status := .healthy }
  else
    -- before the fault
    { id := i,
      temperature :=
        targetTemp + (r0 - 1/2) * (if sc = .vision then 1/10 else 2/5),
      fanSpeed := 50 + r1 * 5, power := 430 + r2 * 10,
      status := .healthy }

/-- Phase label of `calculateSimulationData`. -/
def phaseOf (sc : Scenario) (currentStep : ℕ) (manualFault : Bool) : String :=
  if currentStep < faultStep sc then "Stable Operation"
  else if currentStep = faultStep sc ∨ manualFault then "Fault Detected"
  else if currentStep < faultStep sc + 50 then "Self-Healing Response"
  else "System Stabilized"

/-- Phase description of `calculateSimulationData`. -/
def phaseDescriptionOf (sc : Scenario) (currentStep : ℕ)
    (manualFault : Bool) : String :=
  if currentStep < faultStep sc then
    match sc with
    | .prototype => "System Stable - Energy Efficient Cooling"
    | .vision => "AI Swarm Maintaining Thermal Balance"
  else if currentStep = faultStep sc ∨ manualFault then
    match sc with
    | .prototype =>
        "Fault Detected - Cooling Failure in Agent " ++
          toString (numAgents sc - 1)
    | .vision => "Autonomous Self-Healing in Progress - Multi-Fault Adaptation"
  else if currentStep < faultStep sc + 50 then
    match sc with
    | .prototype => "Self-Healing in Progress - Adaptive Load Redistribution"
    | .vision => "Autonomous Self-Healing in Progress"
  else
    match sc with
    | .prototype => "System Stabilized - Partial Recovery Achieved"
    | .vision => "System Restored - Zero Downtime Achieved"

/-- Full snapshot computation (`calculateSimulationData`). -/
def calculateSimulationData (sc : Scenario) (currentStep : ℕ)
    (manualFault : Bool) (r : ℕ → ℚ) : SimulationData :=
  let agents := (List.range (numAgents sc)).map (mkAgent sc currentStep manualFault r)
  let n : ℚ := (numAgents sc : ℚ)
  let avgTemp := (agents.map (·.temperature)).sum / n
  let variance := (agents.map (fun a => (a.temperature - avgTemp) ^ 2)).sum / n
  let avgPower := (agents.map (·.power)).sum / n
  let recoveryTime :=
    if faultStep sc < currentStep ∧ currentStep < faultStep sc + 50 then
      currentStep - faultStep sc
    else 0
  let efficiency : ℚ :=
    match sc with
    | .vision => if faultStep sc + 100 < currentStep then 1 else 85/100
    | .prototype =>
        if currentStep < faultStep sc then 42/100
        else if faultStep sc + 100 < currentStep then 38/100
        else 30/100
  { agents := agents, avgTemp := avgTemp, variance := variance,
    avgPower := avgPower, recoveryTime := recoveryTime,
    efficiency := efficiency, phase := phaseOf sc currentStep manualFault,
    phaseDescription := phaseDescriptionOf sc currentStep manualFault }

/-- Hook state of the tick-counter variant: the `step`, `isPlaying`,
`faultInjected` and `data` React state cells. -/
structure SimState where
  step : ℕ
  isPlaying : Bool
  faultInjected : Bool
  data : SimulationData
deriving DecidableEq, Repr

/-- The step-counter update of the playing interval:
`next = prev >= maxSteps ? 0 : prev + 1`. -/
def tickNext (maxSteps prev : ℕ) : ℕ :=
  if maxSteps ≤ prev then 0 else prev + 1

/-- One firing of the playing interval: advance the step counter (wrapping at
`maxSteps`) and recompute the snapshot with the current fault latch. -/
def tickStep (sc : Scenario) (r : ℕ → ℚ) (s : SimState) : SimState :=
  if s.isPlaying then
    let next := tickNext (maxSteps sc) s.step
    { s with
      step := next,
      data := calculateSimulationData sc next s.faultInjected r }
  else s

/-- `handleInjectFault`: if the latch is unset, set it, jump the step counter
to the fault step and recompute the snapshot with `manualFault = true`;
otherwise do nothing. -/
def handleInjectFault (sc : Scenario) (r : ℕ → ℚ) (s : SimState) : SimState :=
  if s.faultInjected then s
  else
    { s with
      faultInjected := true,
      step := faultStep sc,
      data := calculateSimulationData sc (faultStep sc) true r }

/-- `handleReset`: zero the step, stop playing, clear the latch, recompute. -/
def handleReset (sc : Scenario) (r : ℕ → ℚ) (_s : SimState) : SimState :=
  { step := 0, isPlaying := false, faultInjected := false,
    data := calculateSimulationData sc 0 false r }

/-- `canInjectFault: !faultInjected && step < faultStep`. -/
def canInjectFault (sc : Scenario) (s : SimState) : Bool :=
  !s.faultInjected && decide (s.step < faultStep sc)

end TickSim

namespace RingSim

/-- Health status set of the ring-topology variant
(`type HealthStatus = "healthy" | "warning" | "failed" | "healing"`). -/
inductive HealthStatus
  | healthy
  | warning
  | failed
  | healing
deriving DecidableEq, Repr

/-- One agent of the ring-topology variant (`interface Agent`). -/
structure Agent where
  id : ℕ
  temperature : ℚ
  targetTemperature : ℚ
  load : ℚ
  fanSpeed : ℚ
  healthStatus : HealthStatus
  neighbors : List ℕ
  isHealing : Bool
  communicating : Bool
deriving DecidableEq, Repr

/-- Placeholder agent for out-of-range indexing (the JavaScript code always
indexes in range; `List.getD` needs a default value). -/
def defaultAgent : Agent :=
  { id := 0, temperature := 0, targetTemperature := 0, load := 0,
    fanSpeed := 0, healthStatus := .healthy, neighbors := [],
    isHealing := false, communicating := false }

/-- `INITIAL_TEMP = 25`. -/
def INITIAL_TEMP : ℚ := 25

/-- `TARGET_TEMP = 22`. -/
def TARGET_TEMP : ℚ := 22

/-- `TEMP_THRESHOLD_HIGH = 28`. -/
def TEMP_THRESHOLD_HIGH : ℚ := 28

/-- `TEMP_THRESHOLD_LOW = 20`. -/
def TEMP_THRESHOLD_LOW : ℚ := 20

/-- `COOLING_RATE = 0.5`. -/
def COOLING_RATE : ℚ := 1/2

/-- `HEATING_RATE = 0.3`. -/
def HEATING_RATE : ℚ := 3/10

/-- Ring neighbors of agent `i` out of `count`:
`[(i - 1 + count) % count, (i + 1) % count]` (written `i + count - 1` so the
natural-number subtraction matches the JavaScript signed arithmetic). -/
def ringNeighbors (count i : ℕ) : List ℕ :=
  [(i + count - 1) % count, (i + 1) % count]

/-- `createInitialAgents(count)`: `count` agents on a ring, randomized initial
temperature (`25 + rand*4 - 2`) and load (`rand*50 + 25`).  Agent `i` consumes
random slots `2*i` (temperature) and `2*i+1` (load). -/
def createInitialAgents (r : ℕ → ℚ) (count : ℕ) : List Agent :=
  (List.range count).map (fun i =>
    { id := i,
      temperature := INITIAL_TEMP + r (2 * i) * 4 - 2,
      targetTemperature := TARGET_TEMP,
      load := r (2 * i + 1) * 50 + 25,
      fanSpeed := 50,
      healthStatus := .healthy,
      neighbors := ringNeighbors count i,
      isHealing := false,
      communicating := false })

/-- The neighbor records looked up by `agent.neighbors.map(id => allAgents[id])`. -/
def neighborAgents (agent : Agent) (allAgents : List Agent) : List Agent :=
  agent.neighbors.map (fun i => allAgents.getD i defaultAgent)

/-- `failedNeighbors = neighborAgents.filter(n => n.healthStatus === "failed")`. -/
def failedNeighbors (agent : Agent) (allAgents : List Agent) : List Agent :=
  (neighborAgents agent allAgents).filter
    (fun n => decide (n.healthStatus = .failed))

/-- `healthyNeighbors = neighborAgents.filter(n => n.healthStatus === "healthy" || n.healthStatus === "healing")`. -/
def healthyNeighbors (agent : Agent) (allAgents : List Agent) : List Agent :=
  (neighborAgents agent allAgents).filter
    (fun n => decide (n.healthStatus = .healthy ∨ n.healthStatus = .healing))

/-- The per-tick agent update rule (`updateAgent`).  Pure function of the
agent and the previous tick's full agent array.

The `extraLoad` division is `ℚ`-division: when `healthyNeighbors` is empty and
no neighbor failed, the JavaScript value is `NaN` and the `(extraLoad || 0)`
guard replaces it by `0`, which coincides with `0 / 0 = 0` here; when a failed
neighbor exists but no healthy one, the JavaScript value is `Infinity`
(see the division-by-zero theorem below), which `ℚ` cannot represent. -/
def updateAgent (agent : Agent) (allAgents : List Agent) : Agent :=
  if agent.healthStatus = .failed then
    -- failed agents do not cool and overheat
    { agent with
      temperature := min (agent.temperature + HEATING_RATE * 2) 40,
      fanSpeed := 0 }
  else
    let failedNs := failedNeighbors agent allAgents
    let healthyNs := healthyNeighbors agent allAgents
    -- anomaly detection / healing hand-off (two mutable variables in source)
    let newHealthStatus : HealthStatus :=
      if 0 < failedNs.length ∧ agent.healthStatus = .healthy then .healing
      else if agent.isHealing ∧ failedNs.length = 0 then .healthy
      else agent.healthStatus
    let isHealing : Bool :=
      if 0 < failedNs.length ∧ agent.healthStatus = .healthy then true
      else if agent.isHealing ∧ failedNs.length = 0 then false
      else agent.isHealing
    -- load redistribution from failed neighbors
    let extraLoad := (failedNs.map (·.load)).sum / (healthyNs.length : ℚ)
    let effectiveLoad := agent.load + extraLoad
    -- fan speed targeting
    let targetFanSpeed : ℚ :=
      if TEMP_THRESHOLD_HIGH < agent.temperature then 100
      else if agent.targetTemperature + 2 < agent.temperature then 75
      else if agent.temperature < TEMP_THRESHOLD_LOW then 25
      else 50
    let targetFanSpeed :=
      if 60 < effectiveLoad then min 100 (targetFanSpeed + 20)
      else targetFanSpeed
    let newFanSpeed := agent.fanSpeed + (targetFanSpeed - agent.fanSpeed) * (3/10)
    -- temperature change
    let coolingEffect := newFanSpeed / 100 * COOLING_RATE
    let heatingEffect := effectiveLoad / 100 * HEATING_RATE
    let newTemp := agent.temperature + (heatingEffect - coolingEffect)
    -- temperature-driven status overrides
    let newHealthStatus2 : HealthStatus :=
      if 35 < newTemp then .warning
      else if newTemp ≤ agent.targetTemperature + 3 ∧ newHealthStatus = .warning then
        (if isHealing then .healing else .healthy)
      else newHealthStatus
    { agent with
      temperature := max 18 (min 40 newTemp),
      fanSpeed := newFanSpeed,
      healthStatus := newHealthStatus2,
      load := if agent.load < effectiveLoad then effectiveLoad * (95/100) else agent.load,
      isHealing := isHealing,
      communicating := decide (0 < failedNs.length) }

/-- One simulation tick: every agent updated against the previous array. -/
def simulationStep (agents : List Agent) : List Agent :=
  agents.map (fun a => updateAgent a agents)

/-- `triggerFailure(agentId)`: force the agent into `failed`, fan to 0. -/
def triggerFailure (agentId : ℕ) (agents : List Agent) : List Agent :=
  agents.map (fun agent =>
    if agent.id = agentId then
      { agent with healthStatus := .failed, fanSpeed := 0 }
    else agent)

/-- `repairAgent(agentId)`: back to `healthy`, clear the healing flag. -/
def repairAgent (agentId : ℕ) (agents : List Agent) : List Agent :=
  agents.map (fun agent =>
    if agent.id = agentId then
      { agent with healthStatus := .healthy, isHealing := false }
    else agent)

/-- Aggregate statistics record (`interface SimulationStats`). -/
structure SimulationStats where
  averageTemperature : ℚ
  healthyAgents : ℕ
  failedAgents : ℕ
  totalLoad : ℚ
deriving DecidableEq, Repr

/-- `calculateStats(currentAgents)`. -/
def calculateStats (currentAgents : List Agent) : SimulationStats :=
  { averageTemperature :=
      (currentAgents.map (·.temperature)).sum / (currentAgents.length : ℚ),
    healthyAgents :=
      (currentAgents.filter (fun a => decide (a.healthStatus = .healthy))).length,
    failedAgents :=
      (currentAgents.filter (fun a => decide (a.healthStatus = .failed))).length,
    totalLoad := (currentAgents.map (·.load)).sum }

end RingSim

namespace SwarmJS

/-- `clamp(v, a, b) = Math.max(a, Math.min(b, v))`. -/
def clamp (v a b : ℚ) : ℚ := max a (min b v)

/-- One swarm agent of the `script.js` variant; ids are the display names,
`neighbors` holds the ids of the adjacent agents on the line. -/
structure SwarmAgent where
  id : String
  temp : ℚ
  load : ℚ
  power : ℚ
  neighbors : List String
  status : String
deriving DecidableEq, Repr

/-- `agentNames = ['Z1-A','Z1-B','Z2-A','Z2-B','Z3-A','Z3-B']`. -/
def agentNames : List String := ["Z1-A", "Z1-B", "Z2-A", "Z2-B", "Z3-A", "Z3-B"]

/-- Line-topology neighbor names of index `i`: the previous name (when
`i > 0`) followed by the next name (when `i < length - 1`). -/
def lineNeighbors (names : List String) (i : ℕ) : List String :=
  (if 0 < i then [names.getD (i - 1) ""] else []) ++
    (if i + 1 < names.length then [names.getD (i + 1) ""] else [])

/-- The initial swarm population: one agent per name, randomized temp in
`[25,28)`, load in `[0.35,0.65)`, power in `[2.5,4.5)`, status `OK`.
Agent `i` consumes random slots `3*i`, `3*i+1`, `3*i+2`. -/
def initialAgents (r : ℕ → ℚ) : List SwarmAgent :=
  (List.range agentNames.length).map (fun i =>
    { id := agentNames.getD i "",
      temp := 25 + r (3 * i) * 3,
      load := 35/100 + r (3 * i + 1) * (3/10),
      power := 5/2 + r (3 * i + 2) * 2,
      neighbors := lineNeighbors agentNames i,
      status := "OK" })

/-- Update the power of the agent named `i` with `f`, leaving others alone. -/
def updatePowerById (agents : List SwarmAgent) (i : String) (f : ℚ → ℚ) :
    List SwarmAgent :=
  agents.map (fun a => if a.id = i then { a with power := f a.power } else a)

/-- Set the status of the agent named `i`. -/
def setStatusById (agents : List SwarmAgent) (i : String) (st : String) :
    List SwarmAgent :=
  agents.map (fun a => if a.id = i then { a with status := st } else a)

/-- Neighbor list of the agent named `i` in the current population. -/
def neighborsOf (agents : List SwarmAgent) (i : String) : List String :=
  ((agents.find? (fun a => a.id = i)).map (·.neighbors)).getD []

/-- One iteration of the inner `a.neighbors.forEach` of the hot-balancing
loop: boost the neighbor's power by `+0.15` (clamped to `[1.5, 6]`), then
drop the hot agent's own power by `-0.12` (clamped to `[1, 6]`).  Note the
self-decrement sits inside the neighbor loop in the source, so it runs once
per neighbor. -/
def hotNeighborStep (aId : String) (agents : List SwarmAgent) (nId : String) :
    List SwarmAgent :=
  updatePowerById
    (updatePowerById agents nId (fun p => clamp (p + 15/100) (3/2) 6))
    aId (fun p => clamp (p - 12/100) 1 6)

/-- The body of `hot.forEach(a => ...)`: mark the agent `HOT`, then run the
neighbor loop. -/
def hotAgentAction (agents : List SwarmAgent) (aId : String) :
    List SwarmAgent :=
  (neighborsOf agents aId).foldl (hotNeighborStep aId)
    (setStatusById agents aId "HOT")

/-- The anomaly + neighbor-balancing phase of `swarmStep`: collect the agents
with `temp > 33` (against the pre-phase population, as the source computes
`hot` before the loop), then apply `hotAgentAction` for each in order. -/
def hotBalance (agents : List SwarmAgent) : List SwarmAgent :=
  let hotIds := (agents.filter (fun a => decide (33 < a.temp))).map (·.id)
  hotIds.foldl hotAgentAction agents

end SwarmJS

/-!
Concrete inputs used by the witnesses and counterexamples below: a constant
random stream (every draw is `0.9`, inside the `[0,1)` envelope of
`Math.random()`), the populations reached from it by the engine commands, and
a concrete swarm state for the heat/cool-balance variant.
-/

/-- A fixed random stream: every `Math.random()` call returns `0.9`. -/
def rNine : ℕ → ℚ := fun _ => 9/10

namespace RingSim

/-- Shorthand for the agent records produced by `createInitialAgents rNine 5`
(temperature `25 + 0.9*4 - 2 = 26.6`, load `0.9*50 + 25 = 70`), with the
status and fan speed a later command may have set. -/
def demoAgent (i : ℕ) (st : HealthStatus) (fan : ℚ) (nbrs : List ℕ) : Agent :=
  { id := i, temperature := 133/5, targetTemperature := 22, load := 70,
    fanSpeed := fan, healthStatus := st, neighbors := nbrs,
    isHealing := false, communicating := false }

/-- The five-agent ring population drawn with the constant stream. -/
def demoPop : List Agent := createInitialAgents rNine 5

/-- `demoPop` after the command `triggerFailure(1)`. -/
def demoPopFailed : List Agent := triggerFailure 1 demoPop

/-- `demoPop` after `triggerFailure(1)` and `triggerFailure(4)` — both ring
neighbors of agent 0 are failed. -/
def demoPopBothFailed : List Agent := triggerFailure 4 (triggerFailure 1 demoPop)

/-- A single failed agent value, used to instantiate update-rule theorems. -/
def demoFailedAgent : Agent := demoAgent 1 .failed 0 [0, 2]

end RingSim

namespace TickSim

/-- A running hook state of the prototype scenario sitting at
`step = maxSteps = 200` (reachable: the interval increments `199` to `200`). -/
def demoState200 : SimState :=
  { step := 200, isPlaying := true, faultInjected := false,
    data := calculateSimulationData .prototype 200 false rNine }

end TickSim

namespace SwarmJS

/-- Shorthand for a swarm agent record with load `0.5` and status `OK`. -/
def mkSwarmAgent (nm : String) (t p : ℚ) (nbrs : List String) : SwarmAgent :=
  { id := nm, temp := t, load := 1/2, power := p, neighbors := nbrs,
    status := "OK" }

/-- A concrete swarm state on the source's six-agent line in which exactly
`Z2-A` is above the hot threshold (`34 > 33`); every power is `3`. -/
def demoSwarm : List SwarmAgent :=
  [mkSwarmAgent "Z1-A" 30 3 ["Z1-B"],
   mkSwarmAgent "Z1-B" 30 3 ["Z1-A", "Z2-A"],
   mkSwarmAgent "Z2-A" 34 3 ["Z1-B", "Z2-B"],
   mkSwarmAgent "Z2-B" 30 3 ["Z2-A", "Z3-A"],
   mkSwarmAgent "Z3-A" 30 3 ["Z2-B", "Z3-B"],
   mkSwarmAgent "Z3-B" 30 3 ["Z3-A"]]

end SwarmJS

/-!
Helper lemmas: arithmetic of the ring indices, list-indexing bridges, and
closed forms of the concrete populations.
-/

namespace RingSim

/-- Successor index modulo `count`, in closed form. -/
theorem mod_succ (count i : ℕ) (hi : i < count) :
    (i + 1) % count = if i + 1 = count then 0 else i + 1 := by
  split_ifs with h
  · simp [h]
  · exact Nat.mod_eq_of_lt (by omega)

/-- Predecessor index modulo `count`, in closed form. -/
theorem mod_pred (count i : ℕ) (hi : i < count) :
    (i + count - 1) % count = if i = 0 then count - 1 else i - 1 := by
  split_ifs with h
  · subst h
    simp [Nat.mod_eq_of_lt (by omega : count - 1 < count)]
  · have h2 : i + count - 1 = (i - 1) + count := by omega
    rw [h2, Nat.add_mod_right]
    exact Nat.mod_eq_of_lt (by omega)

/-- Indexing a mapped agent list below its length applies the function to
the entry. -/
theorem getD_map_of_lt (f : Agent → Agent) (l : List Agent) (i : ℕ)
    (h : i < l.length) :
    (l.map f).getD i defaultAgent = f (l.getD i defaultAgent) := by
  rw [List.getD_eq_getElem?_getD, List.getD_eq_getElem?_getD,
    List.getElem?_map, List.getElem?_eq_getElem h]
  rfl

/-- `simulationStep` preserves the population size. -/
theorem simulationStep_length (l : List Agent) :
    (simulationStep l).length = l.length := by
  simp [simulationStep]

/-- Closed form of the five-agent population drawn with the constant
stream. -/
theorem demoPop_eq : demoPop =
    [demoAgent 0 .healthy 50 [4, 1], demoAgent 1 .healthy 50 [0, 2],
     demoAgent 2 .healthy 50 [1, 3], demoAgent 3 .healthy 50 [2, 4],
     demoAgent 4 .healthy 50 [3, 0]] := by
  norm_num [demoPop, createInitialAgents, ringNeighbors, rNine, INITIAL_TEMP,
    TARGET_TEMP, demoAgent, List.range_succ]

/-- Closed form after `triggerFailure(1)`. -/
theorem demoPopFailed_eq : demoPopFailed =
    [demoAgent 0 .healthy 50 [4, 1], demoAgent 1 .failed 0 [0, 2],
     demoAgent 2 .healthy 50 [1, 3], demoAgent 3 .healthy 50 [2, 4],
     demoAgent 4 .healthy 50 [3, 0]] := by
  rw [demoPopFailed, demoPop_eq]
  norm_num [triggerFailure, demoAgent]

/-- Closed form after `triggerFailure(1)` and `triggerFailure(4)`. -/
theorem demoPopBothFailed_eq : demoPopBothFailed =
    [demoAgent 0 .healthy 50 [4, 1], demoAgent 1 .failed 0 [0, 2],
     demoAgent 2 .healthy 50 [1, 3], demoAgent 3 .healthy 50 [2, 4],
     demoAgent 4 .failed 0 [3, 0]] := by
  rw [demoPopBothFailed, demoPop_eq]
  norm_num [triggerFailure, demoAgent]

/-- The failed branch of `updateAgent` in closed form: heat by `0.6` toward
the `40` cap, force the fan to `0`, leave every other field (in particular
the load) unchanged. -/
theorem updateAgent_failed (a : Agent) (all : List Agent)
    (h : a.healthStatus = .failed) :
    updateAgent a all =
      { a with temperature := min (a.temperature + 3/5) 40, fanSpeed := 0 } := by
  rw [updateAgent, if_pos h]
  norm_num [HEATING_RATE]

/-- Trajectory of the failed agent 1 under iterated simulation steps: it
stays failed, keeps its load `70`, and its temperature follows
`min (26.6 + 0.6 n) 40`. -/
theorem failed_trajectory (n : ℕ) :
    ((simulationStep^[n] demoPopFailed).getD 1 defaultAgent).healthStatus = .failed ∧
    ((simulationStep^[n] demoPopFailed).getD 1 defaultAgent).load = 70 ∧
    (simulationStep^[n] demoPopFailed).length = 5 ∧
    ((simulationStep^[n] demoPopFailed).getD 1 defaultAgent).temperature
      = min (133/5 + 3/5 * (n:ℚ)) 40 := by
  induction n with
  | zero =>
      simp only [Function.iterate_zero, id]
      rw [demoPopFailed_eq]
      refine ⟨rfl, rfl, rfl, ?_⟩
      have h0 : ((133:ℚ)/5 + 3/5 * ((0:ℕ):ℚ)) ≤ 40 := by norm_num
      rw [min_eq_left h0]
      norm_num [demoAgent, List.getD]
  | succ n ih =>
      obtain ⟨hst, hld, hlen, htemp⟩ := ih
      rw [Function.iterate_succ_apply']
      have hgd : (simulationStep (simulationStep^[n] demoPopFailed)).getD 1 defaultAgent
          = updateAgent ((simulationStep^[n] demoPopFailed).getD 1 defaultAgent)
              (simulationStep^[n] demoPopFailed) := by
        rw [simulationStep, getD_map_of_lt _ _ 1 (by rw [hlen]; norm_num)]
      rw [hgd, updateAgent_failed _ _ hst]
      refine ⟨hst, hld, by rw [simulationStep_length, hlen], ?_⟩
      simp only
      rw [htemp]
      push_cast
      rcases le_or_lt (133/5 + 3/5 * (n:ℚ)) 40 with hle | hlt
      · rw [min_eq_left hle]
        congr 1
        ring
      · rw [min_eq_right (le_of_lt hlt)]
        rw [min_eq_right (by norm_num : (40:ℚ) ≤ 40 + 3/5)]
        rw [min_eq_right (by linarith : (40:ℚ) ≤ 133/5 + 3/5 * ((n:ℚ)+1))]

end RingSim

/-!
The claim theorems.
-/

open TickSim RingSim SwarmJS

/-- Claim C1, counterexample: the bounds invariant fails in the ring-topology
variant.  Starting from a population whose loads all lie in the configured
initial range `[25, 75]`, one `triggerFailure(1)` command followed by one
simulation step pushes agent 0's load to `133`, outside the range: the
redistributed load is never clamped. -/
theorem load_bound_violation_counterexample :
    (∀ a ∈ demoPop, 25 ≤ a.load ∧ a.load ≤ 75) ∧
    ((simulationStep demoPopFailed).getD 0 defaultAgent).load = 133 ∧
    ¬ ((simulationStep demoPopFailed).getD 0 defaultAgent).load ≤ 75 := by
  have hload : ((simulationStep demoPopFailed).getD 0 defaultAgent).load = 133 := by
    have hgd : (simulationStep demoPopFailed).getD 0 defaultAgent
        = updateAgent (demoPopFailed.getD 0 defaultAgent) demoPopFailed := by
      rw [simulationStep, getD_map_of_lt _ _ 0 (by rw [demoPopFailed_eq]; norm_num)]
    rw [hgd, demoPopFailed_eq]
    norm_num +decide [updateAgent, failedNeighbors, healthyNeighbors,
      neighborAgents, demoAgent, List.getD_cons_zero, List.getD_cons_succ,
      TEMP_THRESHOLD_HIGH, TEMP_THRESHOLD_LOW, HEATING_RATE, COOLING_RATE,
      List.filter_cons, List.filter_nil, List.map_cons, List.map_nil,
      List.sum_cons, List.sum_nil, List.getD]
  refine ⟨?_, hload, by rw [hload]; norm_num⟩
  rw [demoPop_eq]
  intro a ha
  simp only [List.mem_cons, List.not_mem_nil, or_false] at ha
  rcases ha with rfl | rfl | rfl | rfl | rfl <;> norm_num [demoAgent]

/-- Claim C1, amended: the temperature and fan-speed bounds do hold in the
ring-topology variant — `updateAgent` keeps temperature in `[18, 40]` and fan
speed in `[0, 100]` for every agent and population — but the load is not
bounded (see the counterexample). -/
theorem updateAgent_bounds (a : Agent) (all : List Agent)
    (ht1 : 18 ≤ a.temperature) (_ht2 : a.temperature ≤ 40)
    (hf1 : 0 ≤ a.fanSpeed) (hf2 : a.fanSpeed ≤ 100) :
    (18 ≤ (updateAgent a all).temperature ∧
      (updateAgent a all).temperature ≤ 40) ∧
    (0 ≤ (updateAgent a all).fanSpeed ∧ (updateAgent a all).fanSpeed ≤ 100) := by
  rw [updateAgent]
  by_cases h : a.healthStatus = .failed
  · rw [if_pos h]
    simp only [HEATING_RATE]
    refine ⟨⟨le_min (by linarith) (by norm_num), min_le_right _ _⟩,
      le_refl 0, by norm_num⟩
  · rw [if_neg h]
    simp only
    refine ⟨⟨le_max_left _ _, max_le (by norm_num) (min_le_left _ _)⟩, ?_⟩
    constructor <;> · split_ifs <;> norm_num <;> linarith

/-- Claim C1, witness for the amended theorem at a concrete healthy agent. -/
theorem updateAgent_bounds_witness :
    (18 ≤ (updateAgent (demoAgent 0 .healthy 50 [4, 1]) []).temperature ∧
      (updateAgent (demoAgent 0 .healthy 50 [4, 1]) []).temperature ≤ 40) ∧
    (0 ≤ (updateAgent (demoAgent 0 .healthy 50 [4, 1]) []).fanSpeed ∧
      (updateAgent (demoAgent 0 .healthy 50 [4, 1]) []).fanSpeed ≤ 100) :=
  updateAgent_bounds (demoAgent 0 .healthy 50 [4, 1]) []
    (by norm_num [demoAgent]) (by norm_num [demoAgent])
    (by norm_num [demoAgent]) (by norm_num [demoAgent])

/-- Claim C2 (confirmed): in every snapshot of the tick-counter variant the
stored `avgTemp` is exactly the arithmetic mean of the agents' temperatures,
`variance` the population variance (divisor = agent count), and `avgPower` the
mean power; and in the ring variant `calculateStats` returns exactly the mean
temperature and the total load of its input population. -/
theorem aggregate_consistency :
    (∀ (sc : Scenario) (currentStep : ℕ) (mf : Bool) (r : ℕ → ℚ),
      (calculateSimulationData sc currentStep mf r).agents.length = numAgents sc ∧
      (calculateSimulationData sc currentStep mf r).avgTemp =
        ((calculateSimulationData sc currentStep mf r).agents.map
          (·.temperature)).sum /
          ((calculateSimulationData sc currentStep mf r).agents.length : ℚ) ∧
      (calculateSimulationData sc currentStep mf r).variance =
        ((calculateSimulationData sc currentStep mf r).agents.map
          (fun a => (a.temperature -
            (calculateSimulationData sc currentStep mf r).avgTemp) ^ 2)).sum /
          ((calculateSimulationData sc currentStep mf r).agents.length : ℚ) ∧
      (calculateSimulationData sc currentStep mf r).avgPower =
        ((calculateSimulationData sc currentStep mf r).agents.map
          (·.power)).sum /
          ((calculateSimulationData sc currentStep mf r).agents.length : ℚ)) ∧
    (∀ ags : List Agent,
      (calculateStats ags).averageTemperature =
        (ags.map (·.temperature)).sum / (ags.length : ℚ) ∧
      (calculateStats ags).totalLoad = (ags.map (·.load)).sum) := by
  constructor
  · intro sc currentStep mf r
    simp [calculateSimulationData]
  · intro ags
    exact ⟨rfl, rfl⟩

/-- Claim C3 (confirmed): `handleInjectFault` is idempotent — a second call in
a row leaves the state exactly as after the first — and `canInjectFault` is
true exactly when the latch is unset and the step counter is strictly before
the fault step; it is false after any `handleInjectFault` call. -/
theorem injectFault_idempotent (sc : Scenario) (r1 r2 : ℕ → ℚ) (s : SimState) :
    handleInjectFault sc r2 (handleInjectFault sc r1 s) =
      handleInjectFault sc r1 s ∧
    (canInjectFault sc s = true ↔
      s.faultInjected = false ∧ s.step < faultStep sc) ∧
    canInjectFault sc (handleInjectFault sc r1 s) = false := by
  refine ⟨?_, ?_, ?_⟩
  · unfold handleInjectFault
    by_cases h : s.faultInjected <;> simp [h]
  · simp [canInjectFault]
  · unfold handleInjectFault canInjectFault
    by_cases h : s.faultInjected <;> simp [h]

/-- Claim C4 (confirmed): in the prototype scenario (`faultStep = 50`) with no
manual fault, tick 49 is labeled `Stable Operation`, tick 50 `Fault Detected`,
tick 75 `Self-Healing Response`, tick 150 `System Stabilized`. -/
theorem phase_labels_prototype (r : ℕ → ℚ) :
    (calculateSimulationData .prototype 49 false r).phase = "Stable Operation" ∧
    (calculateSimulationData .prototype 50 false r).phase = "Fault Detected" ∧
    (calculateSimulationData .prototype 75 false r).phase =
      "Self-Healing Response" ∧
    (calculateSimulationData .prototype 150 false r).phase =
      "System Stabilized" :=
  ⟨rfl, rfl, rfl, rfl⟩

/-- Claim C5, counterexample: a failed agent's load is left unchanged (70, not
0) by the next step, and after 23 steps its temperature reaches the 40 cap and
no longer strictly increases (step 24 leaves it at 40). -/
theorem failed_agent_heating_counterexample :
    (demoPopFailed.getD 1 defaultAgent).healthStatus = .failed ∧
    ((simulationStep demoPopFailed).getD 1 defaultAgent).load = 70 ∧
    ((simulationStep demoPopFailed).getD 1 defaultAgent).load ≠ 0 ∧
    ((simulationStep^[24] demoPopFailed).getD 1 defaultAgent).temperature
      = ((simulationStep^[23] demoPopFailed).getD 1 defaultAgent).temperature := by
  have h0 := failed_trajectory 0
  have h1 := failed_trajectory 1
  have h23 := failed_trajectory 23
  have h24 := failed_trajectory 24
  simp only [Function.iterate_zero, id] at h0
  simp only [Function.iterate_one] at h1
  refine ⟨h0.1, h1.2.1, by rw [h1.2.1]; norm_num, ?_⟩
  rw [h23.2.2.2, h24.2.2.2]
  rw [min_eq_right (by norm_num), min_eq_right (by norm_num)]

/-- Claim C5, amended: in the ring variant a failed agent's next temperature
is `min (t + 0.6) 40` — strictly greater while `t < 40` — its fan speed is
forced to `0`, and its load is left unchanged rather than zeroed; in the
tick-counter prototype the faulty agent does have fan speed `0` and power `0`
inside the window, but its temperature is freshly drawn as `30 + rand*3` each
tick rather than strictly increasing. -/
theorem failed_agent_update_rule :
    (∀ (a : Agent) (all : List Agent), a.healthStatus = .failed →
      updateAgent a all =
        { a with temperature := min (a.temperature + 3/5) 40, fanSpeed := 0 } ∧
      (a.temperature < 40 → a.temperature < (updateAgent a all).temperature)) ∧
    (∀ (currentStep : ℕ) (mf : Bool) (r : ℕ → ℚ),
      faultStep .prototype ≤ currentStep →
      currentStep < faultStep .prototype + 100 →
      (mkAgent .prototype currentStep mf r 5).fanSpeed = 0 ∧
      (mkAgent .prototype currentStep mf r 5).power = 0 ∧
      (mkAgent .prototype currentStep mf r 5).temperature = 30 + r 15 * 3) := by
  constructor
  · intro a all h
    have heq := updateAgent_failed a all h
    refine ⟨heq, fun hlt => ?_⟩
    rw [heq]
    simp only
    exact lt_min (by linarith) hlt
  · intro currentStep mf r h1 h2
    rw [mkAgent, if_pos (Or.inl h1), if_pos ⟨by decide, h2⟩]
    norm_num

/-- Claim C5, witness: the amended rule applied to a concrete failed agent
(temperature 26.6 rises to 27.2, fan 0) and to the prototype's faulty agent at
tick 50 (power 0). -/
theorem failed_agent_update_rule_witness :
    (updateAgent demoFailedAgent []).fanSpeed = 0 ∧
    (updateAgent demoFailedAgent []).temperature = 136/5 ∧
    (mkAgent .prototype 50 false rNine 5).power = 0 := by
  have h1 := failed_agent_update_rule.1 demoFailedAgent [] rfl
  have h2 := failed_agent_update_rule.2 50 false rNine (by decide) (by decide)
  refine ⟨by rw [h1.1], ?_, h2.2.1⟩
  rw [h1.1]
  norm_num [demoFailedAgent, demoAgent, min_def]

/-- Claim C6, counterexample: with a single agent (`count = 1`) the ring
construction makes agent 0 its own neighbor, breaking the no-self-neighbor
invariant. -/
theorem ring_self_neighbor_counterexample :
    ((createInitialAgents rNine 1).getD 0 defaultAgent).id = 0 ∧
    ((createInitialAgents rNine 1).getD 0 defaultAgent).id ∈
      ((createInitialAgents rNine 1).getD 0 defaultAgent).neighbors := by
  decide

/-- Claim C6, amended: for every `count ≥ 1` the agents created on the ring
carry exactly the neighbor set `{(i-1+count)%count, (i+1)%count}`, and
membership is symmetric; the self-neighbor exclusion holds only for
`count ≥ 2` (at `count = 1` the sole agent is its own neighbor). -/
theorem ring_topology_wellformed (r : ℕ → ℚ) (count : ℕ) (hc : 1 ≤ count) :
    (∀ i, i < count →
      ((createInitialAgents r count).getD i defaultAgent).neighbors =
        ringNeighbors count i) ∧
    (∀ i j, i < count → j < count →
      (j ∈ ringNeighbors count i ↔ i ∈ ringNeighbors count j)) ∧
    (2 ≤ count → ∀ i, i < count → i ∉ ringNeighbors count i) := by
  refine ⟨?_, ?_, ?_⟩
  · intro i hi
    simp [createInitialAgents, List.getD, List.getElem?_map,
      List.getElem?_range, hi]
  · intro i j hi hj
    simp only [ringNeighbors, List.mem_cons, List.mem_singleton,
      List.not_mem_nil, or_false]
    rw [mod_succ count i hi, mod_succ count j hj, mod_pred count i hi,
      mod_pred count j hj]
    split_ifs <;> omega
  · intro h2 i hi
    simp only [ringNeighbors, List.mem_cons, List.mem_singleton,
      List.not_mem_nil, or_false]
    rw [mod_succ count i hi, mod_pred count i hi]
    split_ifs <;> omega

/-- Claim C6, witness: the amended topology facts at `count = 5`, agent 0. -/
theorem ring_topology_wellformed_witness :
    ((createInitialAgents rNine 5).getD 0 defaultAgent).neighbors = [4, 1] ∧
    ((1 ∈ ringNeighbors 5 0) ↔ (0 ∈ ringNeighbors 5 1)) ∧
    0 ∉ ringNeighbors 5 0 := by
  have h := ring_topology_wellformed rNine 5 (by norm_num)
  refine ⟨?_, h.2.1 0 1 (by norm_num) (by norm_num),
    h.2.2 (by norm_num) 0 (by norm_num)⟩
  rw [h.1 0 (by norm_num)]
  decide

/-- Claim C7, counterexample: on the concrete swarm state in which only
`Z2-A` (an interior agent with two neighbors) is hot, the balancing phase
leaves `Z2-A` with power `2.76`, not the `2.88` a single `-0.12` decrement
would give: the decrement sits inside the neighbor loop and is applied once
per neighbor. -/
theorem hot_redistribution_counterexample :
    ((hotBalance demoSwarm).getD 2 (mkSwarmAgent "" 0 0 [])).power = 69/25 ∧
    ((69:ℚ)/25) ≠ 3 - 12/100 := by
  constructor
  · norm_num +decide [hotBalance, hotAgentAction, hotNeighborStep, neighborsOf,
      setStatusById, updatePowerById, demoSwarm, mkSwarmAgent, clamp,
      List.filter_cons, List.find?, List.getD]
  · norm_num

/-- Claim C7, amended: in a tick where exactly the interior agent `Z2-A`
exceeds the hot threshold, the balancing phase marks it `HOT`, increases each
of its two neighbors' powers by one clamped `+0.15` increment, and decreases
the hot agent's own power by one clamped `-0.12` decrement per neighbor (so
twice for an interior agent); all other agents are untouched. -/
theorem hot_redistribution (t0 t1 t2 t3 t4 t5 p0 p1 p2 p3 p4 p5 : ℚ)
    (h0 : t0 ≤ 33) (h1 : t1 ≤ 33) (h2 : 33 < t2) (h3 : t3 ≤ 33)
    (h4 : t4 ≤ 33) (h5 : t5 ≤ 33) :
    hotBalance
      [mkSwarmAgent "Z1-A" t0 p0 ["Z1-B"],
       mkSwarmAgent "Z1-B" t1 p1 ["Z1-A", "Z2-A"],
       mkSwarmAgent "Z2-A" t2 p2 ["Z1-B", "Z2-B"],
       mkSwarmAgent "Z2-B" t3 p3 ["Z2-A", "Z3-A"],
       mkSwarmAgent "Z3-A" t4 p4 ["Z2-B", "Z3-B"],
       mkSwarmAgent "Z3-B" t5 p5 ["Z3-A"]] =
      [mkSwarmAgent "Z1-A" t0 p0 ["Z1-B"],
       mkSwarmAgent "Z1-B" t1 (clamp (p1 + 15/100) (3/2) 6) ["Z1-A", "Z2-A"],
       { mkSwarmAgent "Z2-A" t2 (clamp (clamp (p2 - 12/100) 1 6 - 12/100) 1 6)
           ["Z1-B", "Z2-B"] with status := "HOT" },
       mkSwarmAgent "Z2-B" t3 (clamp (p3 + 15/100) (3/2) 6) ["Z2-A", "Z3-A"],
       mkSwarmAgent "Z3-A" t4 p4 ["Z2-B", "Z3-B"],
       mkSwarmAgent "Z3-B" t5 p5 ["Z3-A"]] := by
  norm_num +decide [hotBalance, hotAgentAction, hotNeighborStep, neighborsOf,
    setStatusById, updatePowerById, mkSwarmAgent, List.filter_cons,
    decide_eq_false (not_lt.mpr h0), decide_eq_false (not_lt.mpr h1),
    decide_eq_true h2, decide_eq_false (not_lt.mpr h3),
    decide_eq_false (not_lt.mpr h4), decide_eq_false (not_lt.mpr h5),
    List.find?]

/-- Claim C7, witness: the redistribution theorem evaluated on the concrete
demo swarm (`Z2-A` hot at 34 degrees, all powers 3). -/
theorem hot_redistribution_witness :
    hotBalance demoSwarm =
      [mkSwarmAgent "Z1-A" 30 3 ["Z1-B"],
       mkSwarmAgent "Z1-B" 30 (63/20) ["Z1-A", "Z2-A"],
       { mkSwarmAgent "Z2-A" 34 (69/25) ["Z1-B", "Z2-B"] with status := "HOT" },
       mkSwarmAgent "Z2-B" 30 (63/20) ["Z2-A", "Z3-A"],
       mkSwarmAgent "Z3-A" 30 3 ["Z2-B", "Z3-B"],
       mkSwarmAgent "Z3-B" 30 3 ["Z3-A"]] := by
  have h := hot_redistribution 30 30 34 30 30 30 3 3 3 3 3 3
    (by norm_num) (by norm_num) (by norm_num) (by norm_num) (by norm_num)
    (by norm_num)
  rw [show demoSwarm =
    [mkSwarmAgent "Z1-A" 30 3 ["Z1-B"],
     mkSwarmAgent "Z1-B" 30 3 ["Z1-A", "Z2-A"],
     mkSwarmAgent "Z2-A" 34 3 ["Z1-B", "Z2-B"],
     mkSwarmAgent "Z2-B" 30 3 ["Z2-A", "Z3-A"],
     mkSwarmAgent "Z3-A" 30 3 ["Z2-B", "Z3-B"],
     mkSwarmAgent "Z3-B" 30 3 ["Z3-A"]] from rfl, h]
  norm_num [clamp, mkSwarmAgent]

/-- Claim C8, counterexample: constructing with `agentCount = 0` does not fail
with any error — `createInitialAgents` performs no validation and simply
returns the empty population, with which the hook proceeds. -/
theorem invalid_config_counterexample : createInitialAgents rNine 0 = [] := rfl

/-- Claim C8, amended: construction never fails — for every count (including
0) `createInitialAgents` returns exactly `count` agents, all healthy; there is
no `InvalidConfig` check anywhere in the code. -/
theorem createInitialAgents_total (r : ℕ → ℚ) (count : ℕ) :
    (createInitialAgents r count).length = count ∧
    (∀ a, a ∈ createInitialAgents r count →
      a.healthStatus = HealthStatus.healthy) := by
  constructor
  · simp [createInitialAgents]
  · intro a ha
    simp only [createInitialAgents, List.mem_map, List.mem_range] at ha
    obtain ⟨i, _, rfl⟩ := ha
    rfl

/-- Claim C8, witness: the amended construction facts at `count = 5`. -/
theorem createInitialAgents_total_witness :
    (createInitialAgents rNine 5).length = 5 ∧
    ((createInitialAgents rNine 5).getD 0 defaultAgent).healthStatus
      = HealthStatus.healthy := by
  have h := createInitialAgents_total rNine 5
  have hlen : 0 < (createInitialAgents rNine 5).length := by
    rw [h.1]; norm_num
  refine ⟨h.1, h.2 _ ?_⟩
  rw [List.getD_eq_getElem?_getD, List.getElem?_eq_getElem hlen,
    Option.getD_some]
  exact List.getElem_mem hlen

/-- Claim C9, counterexample: from the reachable running state at
`step = maxSteps = 200` (prototype), the next interval firing wraps the step
counter back to 0 — the tick counter is not monotone while running. -/
theorem tick_wraparound_counterexample :
    demoState200.isPlaying = true ∧ demoState200.step = 200 ∧
    (tickStep .prototype rNine demoState200).step = 0 ∧
    ¬ demoState200.step < (tickStep .prototype rNine demoState200).step :=
  ⟨rfl, rfl, rfl, by decide⟩

/-- Claim C9, amended: while playing, each interval firing increments the
step counter by exactly one as long as it is strictly below `maxSteps`, and
wraps it to 0 once it reaches `maxSteps`; so the counter is strictly
increasing only below the wrap point (and `handleInjectFault` may also move
it backwards to `faultStep`). -/
theorem tickStep_increment (sc : Scenario) (r : ℕ → ℚ) (s : SimState)
    (hp : s.isPlaying = true) :
    (s.step < maxSteps sc → (tickStep sc r s).step = s.step + 1) ∧
    (maxSteps sc ≤ s.step → (tickStep sc r s).step = 0) := by
  unfold tickStep tickNext
  constructor <;> intro h <;> simp [hp] <;> omega

/-- Claim C9, witness: the increment law at a running state below the wrap
point and the wrap law at `step = 200`. -/
theorem tickStep_increment_witness :
    (tickStep .prototype rNine { demoState200 with step := 3 }).step = 4 ∧
    (tickStep .prototype rNine demoState200).step = 0 :=
  ⟨(tickStep_increment .prototype rNine { demoState200 with step := 3 }
      rfl).1 (by norm_num [maxSteps]),
   (tickStep_increment .prototype rNine demoState200 rfl).2
      (by norm_num [maxSteps, demoState200])⟩

/-- Claim C10 (confirmed): after forcing both ring neighbors of agent 0 to
fail (`triggerFailure(1)` then `triggerFailure(4)` on the default five-agent
population), agent 0 is still healthy, the sum of its failed neighbors' loads
is positive (their loads are untouched by `triggerFailure`), and its
healthy-neighbor count is zero — so the `extraLoad` expression divides a
positive sum by zero, which in the JavaScript source evaluates to `Infinity`
instead of a finite in-bounds load. -/
theorem division_by_zero_reachable :
    (demoPopBothFailed.getD 0 defaultAgent).healthStatus = .healthy ∧
    0 < ((failedNeighbors (demoPopBothFailed.getD 0 defaultAgent)
          demoPopBothFailed).map (·.load)).sum ∧
    (healthyNeighbors (demoPopBothFailed.getD 0 defaultAgent)
        demoPopBothFailed).length = 0 := by
  rw [demoPopBothFailed_eq]
  norm_num +decide [failedNeighbors, healthyNeighbors, neighborAgents,
    demoAgent, List.getD, List.filter_cons, List.filter_nil, List.map_cons,
    List.map_nil, List.sum_cons, List.sum_nil]
